import Mathlib

/-!
Shallow embedding of the filter-and-aggregate pipeline of `app.py`
(BookMetrics Pro dashboard).  The dataset is a list of rows; pandas
missing values (NaN/NaT) are modelled as `Option`, float arithmetic is
idealised as exact rational arithmetic (`ℚ`), and pandas operations that
raise are modelled with `Except`.
-/

namespace BookMetrics

/-! ### Low-level field parsers (the cleaning primitives of `load_data`) -/

/-- Numeric value of a list of decimal digit characters (most significant
first), as used after a successful all-digit check. -/
def digitsToNat (ds : List Char) : Nat :=
  ds.foldl (fun a c => a * 10 + (c.toNat - 48)) 0

/-- Decimal value `ip.fp` built from integer-part digits and
fraction-part digits (as the exact rational
`(ip * 10 ^ |fp| + fp) / 10 ^ |fp|`). -/
def mkDecimal (ip fp : List Char) : ℚ :=
  mkRat (digitsToNat ip * 10 ^ fp.length + digitsToNat fp) (10 ^ fp.length)

/-- One attempt of the pattern `\d+\.\d+` anchored at the current
position: a maximal digit run, a dot, then at least one digit. -/
def tryDecimalAt (cs : List Char) : Option ℚ :=
  let ip := cs.takeWhile (·.isDigit)
  match cs.dropWhile (·.isDigit) with
  | '.' :: rest =>
      let fp := rest.takeWhile (·.isDigit)
      if ip ≠ [] ∧ fp ≠ [] then some (mkDecimal ip fp) else none
  | _ => none

/-- Scan of a character list for the first match of `\d+\.\d+`
(the regex engine advances one position after each failed anchor). -/
def scanDecimal : List Char → Option ℚ
  | [] => none
  | c :: cs =>
      match tryDecimalAt (c :: cs) with
      | some q => some q
      | none => scanDecimal cs

/-- Models `df["Rating"].str.extract(r"(\d+\.\d+)").astype(float)` on one
cell: the first decimal-number match becomes the rating, no match becomes
missing (NaN). -/
def extractRating (s : String) : Option ℚ :=
  scanDecimal s.data

/-- Strict parse of a nonempty all-digit run as a natural number. -/
def parseNatDigits (cs : List Char) : Option Nat :=
  if cs ≠ [] ∧ cs.all (·.isDigit) then some (digitsToNat cs) else none

/-- Strict float grammar accepted for a cleaned price cell: optional
sign, digits, optional dot and fraction digits, at least one digit in
total (the numeric-literal forms that occur in currency data; anything
else makes `astype(float)` raise). -/
def parseFloat (cs : List Char) : Option ℚ :=
  let (sign, body) :=
    match cs with
    | '-' :: rest => (true, rest)
    | rest => (false, rest)
  let ip := body.takeWhile (·.isDigit)
  let q? : Option ℚ :=
    match body.dropWhile (·.isDigit) with
    | [] => if ip ≠ [] then some (digitsToNat ip : ℚ) else none
    | '.' :: rest =>
        if rest.all (·.isDigit) ∧ (ip ≠ [] ∨ rest ≠ []) then
          some (mkDecimal ip (rest.takeWhile (·.isDigit)))
        else none
    | _ => none
  q?.map (fun q => if sign then -q else q)

/-- Models `'[\$,]'` removal: every dollar sign and comma is deleted. -/
def stripCurrency (s : String) : List Char :=
  s.data.filter (fun c => c ≠ '$' ∧ c ≠ ',')

/-- Models `str.replace("#", "")`: every `#` is deleted. -/
def stripHash (s : String) : List Char :=
  s.data.filter (fun c => c ≠ '#')

/-- Strict parse of a cleaned price cell, `parseFloat` after currency
cleanup. -/
def parsePrice (s : String) : Option ℚ :=
  parseFloat (stripCurrency s)

/-- Strict parse of a cleaned identifier cell as an integer
(models `astype(int)` after `#` removal; int() accepts an optional
sign). -/
def parseRank (s : String) : Option Int :=
  match stripHash s with
  | '-' :: rest => (parseNatDigits rest).map (fun n => -(n : Int))
  | cs => (parseNatDigits cs).map (fun n => (n : Int))

/-- Calendar date as parsed from a publishing-date cell. -/
structure PDate where
  year : Nat
  month : Nat
  day : Nat
deriving DecidableEq, Repr

/-- Models `pd.to_datetime(..., errors="coerce")` on one cell: a lenient
parse whose failures become missing (NaT) instead of raising.  The
recognised shape is ISO `YYYY-MM-DD`; anything else is missing. -/
def parseDate (s : String) : Option PDate :=
  match s.data.splitOn '-' with
  | [ys, ms, ds] =>
      match parseNatDigits ys, parseNatDigits ms, parseNatDigits ds with
      | some y, some m, some d =>
          if 1 ≤ m ∧ m ≤ 12 ∧ 1 ≤ d ∧ d ≤ 31 then some ⟨y, m, d⟩ else none
      | _, _, _ => none
  | _ => none

/-! ### Data model -/

/-- One raw row of `best sellin books 2023.csv` (the fields the cleaning
pipeline touches; optional fields model possibly-empty cells, which
pandas reads as NaN). -/
structure RawRow where
  id : String
  bookName : String
  author : Option String
  genre : Option String
  ratingRaw : Option String
  price : Option String
  reviewsCount : Nat
  form : String
  readingAge : Option String
  printLength : Nat
  publishingDate : String
deriving DecidableEq, Repr

/-- One cleaned book record, the row type produced by `load_data`. -/
structure Book where
  rank : Int
  bookName : String
  author : Option String
  genre : Option String
  rating : Option ℚ
  price : Option ℚ
  reviewsCount : Nat
  form : String
  readingAge : String
  printLength : Nat
  date : Option PDate
  year : Option Nat
  month : Option Nat
  estimatedRevenue : Option ℚ
deriving DecidableEq, Repr

/-- Load-time failure: a required field (price, rank) fails strict
parsing, which makes `astype` raise and aborts the whole load. -/
inductive LoadError where
  | dataFormatError : String → LoadError
deriving DecidableEq, Repr

/-- Cleaning of one row, mirroring the column steps of `load_data`:
rating extraction (lenient), price parse (strict, missing cell stays
NaN), rank parse (strict), lenient date parse with derived year/month,
and the derived revenue `price * reviews_count` (NaN when price is
NaN). -/
def cleanRow (r : RawRow) : Except LoadError Book :=
  let priceRes : Except LoadError (Option ℚ) :=
    match r.price with
    | none => Except.ok none
    | some s =>
        match parsePrice s with
        | some q => Except.ok (some q)
        | none => Except.error (LoadError.dataFormatError "price")
  match priceRes with
  | Except.error e => Except.error e
  | Except.ok p =>
      match parseRank r.id with
      | none => Except.error (LoadError.dataFormatError "rank")
      | some k =>
          let d := parseDate r.publishingDate
          Except.ok
            { rank := k
              bookName := r.bookName
              author := r.author
              genre := r.genre
              rating := r.ratingRaw.bind extractRating
              price := p
              reviewsCount := r.reviewsCount
              form := r.form
              readingAge := r.readingAge.getD "Not Specified"
              printLength := r.printLength
              date := d
              year := d.map (·.year)
              month := d.map (·.month)
              estimatedRevenue := p.map (fun q => q * (r.reviewsCount : ℚ)) }

/-- Models `load_data`: the whole dataset is cleaned, and any strict
parse failure aborts the entire load with an error (no partial cleaned
dataset is produced). -/
def load_data : List RawRow → Except LoadError (List Book)
  | [] => Except.ok []
  | r :: rs =>
      match cleanRow r with
      | Except.error e => Except.error e
      | Except.ok b =>
          match load_data rs with
          | Except.error e => Except.error e
          | Except.ok bs => Except.ok (b :: bs)

/-! ### Filter engine (sidebar masks and their conjunction) -/

/-- One filter selection, the transient value object built from the
sidebar controls: genre multiselect (may contain the "All Genres"
sentinel), author multiselect, inclusive price range, minimum rating,
format single-select ("All Formats" sentinel), year single-select
(`none` models "All Years"). -/
structure FilterSelection where
  genreSel : List String
  authorSel : List String
  priceLo : ℚ
  priceHi : ℚ
  ratingMin : ℚ
  formatSel : String
  yearSel : Option Nat
deriving DecidableEq, Repr

/-- Genre mask: with the sentinel present or an empty selection the mask
is `df["Genre"].notna()`; otherwise `df["Genre"].isin(genre_filter)`
(a missing genre is never a member of the selected set). -/
def genre_mask (s : FilterSelection) (b : Book) : Bool :=
  if "All Genres" ∈ s.genreSel ∨ s.genreSel = [] then
    b.genre.isSome
  else
    match b.genre with
    | some g => decide (g ∈ s.genreSel)
    | none => false

/-- Author mask, same pattern as the genre mask with the "All Authors"
sentinel. -/
def author_mask (s : FilterSelection) (b : Book) : Bool :=
  if "All Authors" ∈ s.authorSel ∨ s.authorSel = [] then
    b.author.isSome
  else
    match b.author with
    | some a => decide (a ∈ s.authorSel)
    | none => false

/-- Price mask, `df["price"].between(lo, hi)`: inclusive range test,
false on a missing price (NaN fails both comparisons). -/
def price_mask (s : FilterSelection) (b : Book) : Bool :=
  match b.price with
  | some p => decide (s.priceLo ≤ p) && decide (p ≤ s.priceHi)
  | none => false

/-- Rating mask, `df["Rating"] >= rating_filter`: false on a missing
rating (a NaN comparison is always false), for every threshold. -/
def rating_mask (s : FilterSelection) (b : Book) : Bool :=
  match b.rating with
  | some q => decide (s.ratingMin ≤ q)
  | none => false

/-- Format mask after the "All Formats" guard: pass-through on the
sentinel, exact match otherwise. -/
def format_mask (s : FilterSelection) (b : Book) : Bool :=
  (s.formatSel == "All Formats") || (b.form == s.formatSel)

/-- Year mask after the "All Years" guard: pass-through with no year
selected, exact match on the derived year otherwise (a missing year
never equals a selected year). -/
def year_mask (s : FilterSelection) (b : Book) : Bool :=
  match s.yearSel with
  | none => true
  | some y => b.year == some y

/-- Models the staged construction of `filtered_df` in `app.py`:
genre and author masks first, then price and rating, then the guarded
format and year filters. -/
def filtered_df (df : List Book) (s : FilterSelection) : List Book :=
  let d1 := df.filter (fun b => genre_mask s b && author_mask s b)
  let d2 := d1.filter (fun b => price_mask s b && rating_mask s b)
  let d3 := if s.formatSel ≠ "All Formats" then
    d2.filter (fun b => b.form == s.formatSel) else d2
  match s.yearSel with
  | none => d3
  | some y => d3.filter (fun b => b.year == some y)

/-- Conjunction of all six masks; `filtered_df` filters by exactly this
predicate (proved below). -/
def rowPass (s : FilterSelection) (b : Book) : Bool :=
  genre_mask s b && author_mask s b && price_mask s b && rating_mask s b &&
    format_mask s b && year_mask s b

/-! ### KPI scalars (lines 192-196 of `app.py`) -/

/-- Mean of a list of rationals, `none` on the empty list (pandas
`mean()` of an empty or all-NaN column is NaN). -/
def meanQ (xs : List ℚ) : Option ℚ :=
  if xs.isEmpty then none else some (xs.sum / (xs.length : ℚ))

/-- Round-half-to-even of a rational to an integer (the tie rule of
Python's `round`). -/
def roundHalfEven (q : ℚ) : Int :=
  let n := q.floor
  let f := q - (n : ℚ)
  if f < 1 / 2 then n
  else if 1 / 2 < f then n + 1
  else if n % 2 = 0 then n else n + 1

/-- Models `round(x, 2)`. -/
def round2 (q : ℚ) : ℚ :=
  (roundHalfEven (q * 100) : ℚ) / 100

/-- KPI: `filtered_df.shape[0]`. -/
def total_books (df : List Book) : Nat :=
  df.length

/-- KPI: `round(filtered_df["Rating"].mean(), 2)`; the mean skips NaN
entries and is itself NaN (`none`) on an empty subset. -/
def avg_rating (df : List Book) : Option ℚ :=
  (meanQ (df.filterMap (·.rating))).map round2

/-- KPI: `int(filtered_df["reviews count"].sum())` (sum of an empty
column is 0). -/
def total_reviews (df : List Book) : Nat :=
  (df.map (·.reviewsCount)).sum

/-- KPI: `round(filtered_df["price"].mean(), 2)`. -/
def avg_price (df : List Book) : Option ℚ :=
  (meanQ (df.filterMap (·.price))).map round2

/-- KPI: `filtered_df["Estimated Revenue"].sum()` (NaN entries are
skipped; the empty sum is 0). -/
def total_revenue (df : List Book) : ℚ :=
  (df.filterMap (·.estimatedRevenue)).sum

/-! ### Grouped aggregates (genre / author / year tables) -/

/-- One row of a grouped aggregate table: group key, mean rating, sum
of reviews, sum of estimated revenue, and row count (`"Book name":
"count"` counts the non-null book names, and `book_name` is a required
field). -/
structure GroupStat (κ : Type) where
  key : κ
  avgRating : Option ℚ
  totalReviews : Nat
  estRevenue : ℚ
  bookCount : Nat
deriving DecidableEq, Repr

/-- Group keys of a `groupby`: the distinct non-missing key values
(`groupby` drops rows whose key is NaN; pandas sorts the keys, an
ordering that no claim depends on). -/
def groupKeys {κ : Type} [DecidableEq κ] (f : Book → Option κ)
    (df : List Book) : List κ :=
  (df.filterMap f).dedup

/-- Aggregate row of one group: the rows whose key matches, aggregated
as in the `.agg` dictionaries of `app.py`. -/
def groupAgg {κ : Type} [DecidableEq κ] (f : Book → Option κ)
    (df : List Book) (g : κ) : GroupStat κ :=
  let grp := df.filter (fun b => f b == some g)
  { key := g
    avgRating := meanQ (grp.filterMap (·.rating))
    totalReviews := (grp.map (·.reviewsCount)).sum
    estRevenue := (grp.filterMap (·.estimatedRevenue)).sum
    bookCount := grp.length }

/-- Models `genre_stats`: `filtered_df.groupby("Genre").agg(...)`. -/
def genre_stats (df : List Book) : List (GroupStat String) :=
  (groupKeys (·.genre) df).map (groupAgg (·.genre) df)

/-- Models `author_stats`: `filtered_df.groupby("Author").agg(...)`. -/
def author_stats (df : List Book) : List (GroupStat String) :=
  (groupKeys (·.author) df).map (groupAgg (·.author) df)

/-- Models `yearly_trend`: rows with a missing year are dropped first
(`trend_df`), then grouped by the derived year. -/
def yearly_trend (df : List Book) : List (GroupStat Nat) :=
  let t := df.filter (fun b => b.year.isSome)
  (groupKeys (·.year) t).map (groupAgg (·.year) t)

/-! ### Top-N selection (`nlargest`) -/

/-- Order underlying `nlargest(n, col)` with the default
`keep="first"`: metric strictly larger first, and on a tie the smaller
original position first (pandas documents `nlargest` as equivalent to a
stable descending sort followed by `head(n)`). -/
def metricLE {α : Type} (key : α → Nat) (a b : Nat × α) : Prop :=
  key b.2 < key a.2 ∨ (key a.2 = key b.2 ∧ a.1 ≤ b.1)

instance {α : Type} (key : α → Nat) : DecidableRel (metricLE key) :=
  fun a b => by unfold metricLE; infer_instance

instance {α : Type} (key : α → Nat) : IsTotal (Nat × α) (metricLE key) := by
  constructor
  intro a b
  rcases Nat.lt_trichotomy (key a.2) (key b.2) with h | h | h
  · exact Or.inr (Or.inl h)
  · rcases Nat.le_total a.1 b.1 with h1 | h1
    · exact Or.inl (Or.inr ⟨h, h1⟩)
    · exact Or.inr (Or.inr ⟨h.symm, h1⟩)
  · exact Or.inl (Or.inl h)

instance {α : Type} (key : α → Nat) : IsTrans (Nat × α) (metricLE key) := by
  constructor
  intro a b c hab hbc
  unfold metricLE at *
  omega

/-- Rows paired with their original positions, sorted for `nlargest`:
metric descending, ties by original position. -/
def sortIndexed {α : Type} (key : α → Nat) (l : List α) : List (Nat × α) :=
  List.insertionSort (metricLE key) l.enum

/-- Models `nlargest(n, col)` with the default `keep="first"`: the
first `n` rows of the stable descending sort by the metric. -/
def nlargestBy {α : Type} (key : α → Nat) (n : Nat) (l : List α) : List α :=
  ((sortIndexed key l).take n).map Prod.snd

/-- Models `top_reviews = filtered_df.nlargest(10, "reviews count")`. -/
def top_reviews (df : List Book) : List Book :=
  nlargestBy (·.reviewsCount) 10 df

/-- Models `top_authors = author_stats.nlargest(15, "Total Reviews")`. -/
def top_authors (df : List Book) : List (GroupStat String) :=
  nlargestBy (·.totalReviews) 15 (author_stats df)

/-- The full filter-and-aggregate pass: the filtered subset, the five
KPI scalars, and the three grouped-aggregate tables, as recomputed on
every interaction. -/
def computeAll (df : List Book) (s : FilterSelection) :
    List Book × (Nat × Option ℚ × Nat × Option ℚ × ℚ) ×
      List (GroupStat String) × List (GroupStat String) ×
      List (GroupStat Nat) :=
  let f := filtered_df df s
  (f, (total_books f, avg_rating f, total_reviews f, avg_price f,
    total_revenue f), genre_stats f, author_stats f, yearly_trend f)

/-! ### Concrete sample data (used to instantiate the theorems) -/

/-- Truth value of an `Except` being a success. -/
def exceptIsOk {ε α : Type} : Except ε α → Bool
  | Except.ok _ => true
  | Except.error _ => false

/-- Default all-pass selection: both sentinels selected, a wide price
range, threshold 0, no format or year chosen. -/
def selDefault : FilterSelection :=
  { genreSel := ["All Genres"], authorSel := ["All Authors"],
    priceLo := 0, priceHi := 100, ratingMin := 0,
    formatSel := "All Formats", yearSel := none }

/-- A fully populated fiction row. -/
def bookFiction : Book :=
  { rank := 1, bookName := "Alpha", author := some "Alice",
    genre := some "Fiction", rating := some 4, price := some 10,
    reviewsCount := 100, form := "Hardcover",
    readingAge := "Not Specified", printLength := 300, date := none,
    year := none, month := none, estimatedRevenue := some 1000 }

/-- A fully populated mystery row with the same review count. -/
def bookMystery : Book :=
  { bookFiction with
    rank := 2, bookName := "Beta", author := some "Bob",
    genre := some "Mystery", rating := some 3, price := some 20,
    estimatedRevenue := some 2000 }

/-- A row with a missing rating. -/
def bookNoRating : Book :=
  { bookFiction with rank := 3, rating := none }

/-- A row rated 4.5. -/
def bookRating45 : Book :=
  { bookFiction with rank := 4, rating := some (mkRat 9 2) }

/-- Selection with minimum rating 1. -/
def selMin1 : FilterSelection :=
  { selDefault with ratingMin := 1 }

/-- Selection with minimum rating 4.6. -/
def selMin46 : FilterSelection :=
  { selDefault with ratingMin := mkRat 23 5 }

/-- Selection restricted to the Fiction genre. -/
def selFictionOnly : FilterSelection :=
  { selDefault with genreSel := ["Fiction"] }

/-- Selection with an empty genre multiselect (which the code treats as
all-pass). -/
def selEmptyGenre : FilterSelection :=
  { selDefault with genreSel := [] }

/-- Two-row dataset. -/
def dfTwo : List Book :=
  [bookFiction, bookMystery]

/-- The raw row of the spec's cleaning example scenario. -/
def rawExample : RawRow :=
  { id := "#3", bookName := "Example", author := some "Author",
    genre := some "Fiction", ratingRaw := some "4.5 out of 5 stars",
    price := some "$12.99", reviewsCount := 1500, form := "Hardcover",
    readingAge := none, printLength := 300,
    publishingDate := "2023-01-15" }

/-- The same raw row with a malformed price cell. -/
def rawBadPrice : RawRow :=
  { rawExample with price := some "twelve dollars" }

/-- A raw row with empty optional cells and an unparseable date. -/
def rawSimple : RawRow :=
  { id := "#1", bookName := "B", author := some "A", genre := some "G",
    ratingRaw := none, price := none, reviewsCount := 5, form := "H",
    readingAge := none, printLength := 7, publishingDate := "bad date" }

/-- The cleaned image of `rawSimple`. -/
def bookSimple : Book :=
  { rank := 1, bookName := "B", author := some "A", genre := some "G",
    rating := none, price := none, reviewsCount := 5, form := "H",
    readingAge := "Not Specified", printLength := 7, date := none,
    year := none, month := none, estimatedRevenue := none }

/-! ### Shared lemmas about the filter engine -/

/-- The staged filter application equals one filter by the conjunction
of all six masks. -/
theorem filtered_df_eq_filter (df : List Book) (s : FilterSelection) :
    filtered_df df s = df.filter (rowPass s) := by
  unfold filtered_df rowPass
  by_cases hf : s.formatSel = "All Formats" <;>
    cases hy : s.yearSel <;>
      simp only [hf, hy, ne_eq, not_true_eq_false, not_false_eq_true,
        if_true, if_false, ite_true, ite_false, List.filter_filter] <;>
      refine List.filter_congr (fun b hb => ?_) <;>
      simp only [format_mask, year_mask, hf, hy, beq_self_eq_true,
        Bool.true_or, Bool.and_true] <;>
      cases genre_mask s b <;> cases author_mask s b <;>
      cases price_mask s b <;> cases rating_mask s b <;>
      simp [Bool.and_comm, Bool.and_assoc, Bool.and_left_comm, beq_eq_decide,
        hf, hy]

/-- Membership in the filtered subset. -/
theorem mem_filtered {df : List Book} {s : FilterSelection} {b : Book} :
    b ∈ filtered_df df s ↔ b ∈ df ∧ rowPass s b = true := by
  rw [filtered_df_eq_filter, List.mem_filter]

/-- A row passing the genre mask has a genre. -/
theorem genre_mask_isSome {s : FilterSelection} {b : Book}
    (h : genre_mask s b = true) : b.genre.isSome = true := by
  unfold genre_mask at h
  split at h
  · exact h
  · cases hg : b.genre <;> simp [hg] at h ⊢

/-- A row passing the author mask has an author. -/
theorem author_mask_isSome {s : FilterSelection} {b : Book}
    (h : author_mask s b = true) : b.author.isSome = true := by
  unfold author_mask at h
  split at h
  · exact h
  · cases hg : b.author <;> simp [hg] at h ⊢

/-- A row passing the rating mask has a rating. -/
theorem rating_mask_isSome {s : FilterSelection} {b : Book}
    (h : rating_mask s b = true) : b.rating.isSome = true := by
  unfold rating_mask at h
  cases hg : b.rating <;> simp [hg] at h ⊢

/-- A row passing the price mask has a price. -/
theorem price_mask_isSome {s : FilterSelection} {b : Book}
    (h : price_mask s b = true) : b.price.isSome = true := by
  unfold price_mask at h
  cases hg : b.price <;> simp [hg] at h ⊢

/-- Unpacking of the conjunction of masks. -/
theorem rowPass_iff {s : FilterSelection} {b : Book} :
    rowPass s b = true ↔
      genre_mask s b = true ∧ author_mask s b = true ∧
      price_mask s b = true ∧ rating_mask s b = true ∧
      format_mask s b = true ∧ year_mask s b = true := by
  unfold rowPass
  simp [Bool.and_assoc]

/-- Every row of a filtered subset has a genre, an author, a rating and
a price. -/
theorem rowPass_fields {s : FilterSelection} {b : Book}
    (h : rowPass s b = true) :
    b.genre.isSome = true ∧ b.author.isSome = true ∧
      b.rating.isSome = true ∧ b.price.isSome = true := by
  obtain ⟨hg, ha, hp, hr, -, -⟩ := rowPass_iff.mp h
  exact ⟨genre_mask_isSome hg, author_mask_isSome ha,
    rating_mask_isSome hr, price_mask_isSome hp⟩

/-! ### Shared lemmas about grouping and counting -/

/-- The rows matching one group key are as many as the occurrences of
that key among the non-missing key values. -/
theorem length_filter_eq_count {κ : Type} [DecidableEq κ]
    (f : Book → Option κ) (df : List Book) (g : κ) :
    (df.filter (fun b => f b == some g)).length =
      (df.filterMap f).count g := by
  induction df with
  | nil => simp
  | cons b t ih =>
      cases hb : f b with
      | none => simp [List.filter_cons, List.filterMap_cons, hb, ih]
      | some k =>
          by_cases hk : k = g <;>
            simp [List.filter_cons, List.filterMap_cons, hb, hk, ih,
              List.count_cons]

/-- A `filterMap` by an everywhere-defined projection keeps the
length. -/
theorem length_filterMap_of_isSome {κ : Type} (f : Book → Option κ)
    (df : List Book) (h : ∀ b ∈ df, (f b).isSome = true) :
    (df.filterMap f).length = df.length := by
  induction df with
  | nil => simp
  | cons b t ih =>
      have hb := h b (List.mem_cons_self b t)
      cases hfb : f b with
      | none => rw [hfb] at hb; simp at hb
      | some k =>
          simp only [List.filterMap_cons, hfb, List.length_cons]
          rw [ih (fun x hx => h x (List.mem_cons_of_mem b hx))]

/-- Partition identity of a `groupby`: the group sizes sum to the
number of rows that carry a key. -/
theorem sum_bookCount_eq_length {κ : Type} [DecidableEq κ]
    (f : Book → Option κ) (df : List Book)
    (h : ∀ b ∈ df, (f b).isSome = true) :
    (((groupKeys f df).map (groupAgg f df)).map (·.bookCount)).sum =
      df.length := by
  unfold groupKeys groupAgg
  rw [List.map_map]
  have hcongr :
      ((df.filterMap f).dedup.map
          ((fun gs => gs.bookCount) ∘ fun g =>
            (⟨g, meanQ ((df.filter (fun b => f b == some g)).filterMap
                (·.rating)),
              ((df.filter (fun b => f b == some g)).map
                (·.reviewsCount)).sum,
              ((df.filter (fun b => f b == some g)).filterMap
                (·.estimatedRevenue)).sum,
              (df.filter (fun b => f b == some g)).length⟩ :
                GroupStat κ))) =
        ((df.filterMap f).dedup.map
          (fun g => (df.filterMap f).count g)) := by
    refine List.map_congr_left fun g hg => ?_
    exact length_filter_eq_count f df g
  rw [hcongr, List.sum_map_count_dedup_eq_length,
    length_filterMap_of_isSome f df h]

/-! ### Shared lemmas about the loader -/

/-- A row whose price or identifier fails its strict parse makes
`cleanRow` fail. -/
theorem cleanRow_error_of_malformed (r : RawRow)
    (h : (∃ s, r.price = some s ∧ parsePrice s = none) ∨
      parseRank r.id = none) :
    ∃ e, cleanRow r = Except.error e := by
  unfold cleanRow
  rcases h with ⟨s, hs, hp⟩ | hk
  · rw [hs]
    simp [hp]
  · cases hpr : r.price with
    | none => simp [hk]
    | some s =>
        cases hps : parsePrice s <;> simp [hk, hps]

/-- A failing row anywhere in the input fails the entire load. -/
theorem load_data_error_of_mem {rows : List RawRow} {r : RawRow}
    (hr : r ∈ rows) (h : ∃ e, cleanRow r = Except.error e) :
    ∃ e, load_data rows = Except.error e := by
  induction rows with
  | nil => cases hr
  | cons a t ih =>
      rcases List.mem_cons.mp hr with rfl | hmem
      · obtain ⟨e, he⟩ := h
        exact ⟨e, by unfold load_data; rw [he]⟩
      · obtain ⟨e, he⟩ := ih hmem
        cases ha : cleanRow a with
        | error e2 => exact ⟨e2, by unfold load_data; rw [ha]⟩
        | ok b => exact ⟨e, by unfold load_data; rw [ha, he]⟩

/-! ### Shared lemmas about filter narrowing (monotonicity) -/

/-- A multiselect value that the code treats as all-pass: it contains
the sentinel option or is empty. -/
def SentinelSel (sentinel : String) (sel : List String) : Prop :=
  sentinel ∈ sel ∨ sel = []

/-- Narrowing of one multiselect filter that actually narrows the
predicate: either the wider selection is already all-pass, or the
narrower one is a non-all-pass subset of it. -/
def SelNarrows (sentinel : String) (sel2 sel1 : List String) : Prop :=
  SentinelSel sentinel sel1 ∨
    (sel2 ⊆ sel1 ∧ ¬ SentinelSel sentinel sel2)

/-- Simultaneous narrowing of all six filters (each component equal or
narrowed; a selection that differs in a single narrowed filter is the
special case with the other five equal). -/
def Narrows (s2 s1 : FilterSelection) : Prop :=
  SelNarrows "All Genres" s2.genreSel s1.genreSel ∧
  SelNarrows "All Authors" s2.authorSel s1.authorSel ∧
  s1.priceLo ≤ s2.priceLo ∧ s2.priceHi ≤ s1.priceHi ∧
  s1.ratingMin ≤ s2.ratingMin ∧
  (s1.formatSel = "All Formats" ∨ s2.formatSel = s1.formatSel) ∧
  (s1.yearSel = none ∨ s2.yearSel = s1.yearSel)

/-- Genre-mask monotonicity under a genuine narrowing. -/
theorem genre_mask_mono {s2 s1 : FilterSelection} {b : Book}
    (h : SelNarrows "All Genres" s2.genreSel s1.genreSel)
    (hm : genre_mask s2 b = true) : genre_mask s1 b = true := by
  have hsome := genre_mask_isSome hm
  unfold genre_mask at hm ⊢
  rcases h with hs | ⟨hsub, hns⟩
  · unfold SentinelSel at hs
    rw [if_pos hs]
    exact hsome
  · unfold SentinelSel at hns
    rw [if_neg hns] at hm
    by_cases h1 : "All Genres" ∈ s1.genreSel ∨ s1.genreSel = []
    · rw [if_pos h1]
      exact hsome
    · rw [if_neg h1]
      cases hg : b.genre with
      | none => rw [hg] at hm; simp at hm
      | some g =>
          rw [hg] at hm
          simp only [decide_eq_true_eq] at hm ⊢
          exact hsub hm

/-- Author-mask monotonicity under a genuine narrowing. -/
theorem author_mask_mono {s2 s1 : FilterSelection} {b : Book}
    (h : SelNarrows "All Authors" s2.authorSel s1.authorSel)
    (hm : author_mask s2 b = true) : author_mask s1 b = true := by
  have hsome := author_mask_isSome hm
  unfold author_mask at hm ⊢
  rcases h with hs | ⟨hsub, hns⟩
  · unfold SentinelSel at hs
    rw [if_pos hs]
    exact hsome
  · unfold SentinelSel at hns
    rw [if_neg hns] at hm
    by_cases h1 : "All Authors" ∈ s1.authorSel ∨ s1.authorSel = []
    · rw [if_pos h1]
      exact hsome
    · rw [if_neg h1]
      cases hg : b.author with
      | none => rw [hg] at hm; simp at hm
      | some a =>
          rw [hg] at hm
          simp only [decide_eq_true_eq] at hm ⊢
          exact hsub hm

/-- Price-mask monotonicity under a tightened range. -/
theorem price_mask_mono {s2 s1 : FilterSelection} {b : Book}
    (hlo : s1.priceLo ≤ s2.priceLo) (hhi : s2.priceHi ≤ s1.priceHi)
    (hm : price_mask s2 b = true) : price_mask s1 b = true := by
  unfold price_mask at hm ⊢
  cases hp : b.price with
  | none => rw [hp] at hm; simp at hm
  | some p =>
      rw [hp] at hm
      simp only [Bool.and_eq_true, decide_eq_true_eq] at hm ⊢
      exact ⟨hlo.trans hm.1, hm.2.trans hhi⟩

/-- Rating-mask monotonicity under a raised threshold. -/
theorem rating_mask_mono {s2 s1 : FilterSelection} {b : Book}
    (hr : s1.ratingMin ≤ s2.ratingMin)
    (hm : rating_mask s2 b = true) : rating_mask s1 b = true := by
  unfold rating_mask at hm ⊢
  cases hp : b.rating with
  | none => rw [hp] at hm; simp at hm
  | some q =>
      rw [hp] at hm
      simp only [decide_eq_true_eq] at hm ⊢
      exact hr.trans hm

/-- Format-mask monotonicity: the wider side is the sentinel or both
sides agree. -/
theorem format_mask_mono {s2 s1 : FilterSelection} {b : Book}
    (h : s1.formatSel = "All Formats" ∨ s2.formatSel = s1.formatSel)
    (hm : format_mask s2 b = true) : format_mask s1 b = true := by
  unfold format_mask at hm ⊢
  rcases h with h | h
  · simp [h]
  · rw [h] at hm
    exact hm

/-- Year-mask monotonicity: the wider side is "All Years" or both sides
agree. -/
theorem year_mask_mono {s2 s1 : FilterSelection} {b : Book}
    (h : s1.yearSel = none ∨ s2.yearSel = s1.yearSel)
    (hm : year_mask s2 b = true) : year_mask s1 b = true := by
  unfold year_mask at hm ⊢
  rcases h with h | h
  · rw [h]
  · rw [h] at hm
    exact hm

/-- Row-predicate monotonicity under simultaneous narrowing. -/
theorem rowPass_mono {s2 s1 : FilterSelection} {b : Book}
    (h : Narrows s2 s1) (hm : rowPass s2 b = true) :
    rowPass s1 b = true := by
  obtain ⟨hg, ha, hlo, hhi, hr, hf, hy⟩ := h
  obtain ⟨mg, ma, mp, mr, mf, my⟩ := rowPass_iff.mp hm
  exact rowPass_iff.mpr ⟨genre_mask_mono hg mg, author_mask_mono ha ma,
    price_mask_mono hlo hhi mp, rating_mask_mono hr mr,
    format_mask_mono hf mf, year_mask_mono hy my⟩

/-! ### Claim theorems -/

/-- C1: a row passes the rating predicate iff its rating is present and
at least the threshold, and a row with a missing rating is excluded from
the filtered subset whenever the threshold is positive. -/
theorem C1_rating_filter_semantics (df : List Book) (s : FilterSelection)
    (b : Book) :
    (rating_mask s b = true ↔ ∃ q, b.rating = some q ∧ s.ratingMin ≤ q) ∧
    (0 < s.ratingMin → b.rating = none → b ∉ filtered_df df s) := by
  constructor
  · unfold rating_mask
    cases hr : b.rating with
    | none => simp
    | some q => simp
  · intro hpos hnone hmem
    have hp := (mem_filtered.mp hmem).2
    have hsome := (rowPass_fields hp).2.2.1
    rw [hnone] at hsome
    simp at hsome

/-- C1 witness: with threshold 1, the rating-missing row is not in the
filtered subset. -/
theorem C1_rating_filter_semantics_witness :
    bookNoRating ∉ filtered_df [bookNoRating] selMin1 :=
  (C1_rating_filter_semantics [bookNoRating] selMin1 bookNoRating).2
    (by norm_num [selMin1, selDefault]) rfl

/-- C2: the spec's cleaning example: the raw row with id "#3", rating
text "4.5 out of 5 stars", price "$12.99" and 1500 reviews cleans to
rank 3, rating 4.5, price 12.99 and estimated revenue 19485. -/
theorem C2_cleaning_example :
    (cleanRow rawExample).map (·.rank) = Except.ok 3 ∧
    (cleanRow rawExample).map (·.rating) = Except.ok (some 4.5) ∧
    (cleanRow rawExample).map (·.price) = Except.ok (some 12.99) ∧
    (cleanRow rawExample).map (·.estimatedRevenue) =
      Except.ok (some 19485) := by
  have hmk45 : mkDecimal ['4'] ['5'] = mkRat 9 2 := by decide
  have hmk1299 : mkDecimal ['1', '2'] ['9', '9'] = mkRat 1299 100 := by
    decide
  have h45 : (4.5 : ℚ) = mkRat 9 2 := by
    rw [Rat.mkRat_eq_div]; norm_num
  have h1299 : (12.99 : ℚ) = mkRat 1299 100 := by
    rw [Rat.mkRat_eq_div]; norm_num
  refine ⟨rfl, ?_, ?_, ?_⟩
  · have h : (cleanRow rawExample).map (·.rating) =
        Except.ok (some (mkDecimal ['4'] ['5'])) := rfl
    rw [h, hmk45, h45]
  · have h : (cleanRow rawExample).map (·.price) =
        Except.ok (some (mkDecimal ['1', '2'] ['9', '9'])) := rfl
    rw [h, hmk1299, h1299]
  · have h : (cleanRow rawExample).map (·.estimatedRevenue) =
        Except.ok (some (mkDecimal ['1', '2'] ['9', '9'] *
          ((1500 : Nat) : ℚ))) := rfl
    rw [h, hmk1299, Rat.mkRat_eq_div]
    norm_num

/-- C3: partition identity of the genre aggregate: the per-genre row
counts of the genre table of a filtered subset sum to the size of that
subset (every filtered row carries a genre, so the groupby drops
nothing). -/
theorem C3_genre_partition (df : List Book) (s : FilterSelection) :
    ((genre_stats (filtered_df df s)).map (·.bookCount)).sum =
      (filtered_df df s).length := by
  unfold genre_stats
  refine sum_bookCount_eq_length (·.genre) (filtered_df df s) ?_
  intro b hb
  exact (rowPass_fields (mem_filtered.mp hb).2).1

/-- C4: top-N selection is a stable descending sort by the metric: the
selected prefix is pairwise ordered by metric descending with ties in
original position order, the underlying sort is a permutation of the
rows, and a top-1-by-reviews selection over two rows tied on
reviews_count picks the row appearing first. -/
theorem C4_topn_stable :
    (∀ (α : Type) (key : α → Nat) (n : Nat) (l : List α),
        ((sortIndexed key l).take n).Pairwise (metricLE key) ∧
          ((sortIndexed key l).map Prod.snd).Perm l) ∧
      (∀ b1 b2 : Book, b1.reviewsCount = b2.reviewsCount →
        nlargestBy (fun b => b.reviewsCount) 1 [b1, b2] = [b1]) := by
  constructor
  · intro α key n l
    refine ⟨List.Pairwise.sublist (List.take_sublist n _)
      (List.sorted_insertionSort _ _), ?_⟩
    have hp : (sortIndexed key l).Perm l.enum :=
      List.perm_insertionSort _ _
    have hmap := hp.map Prod.snd
    rw [List.enum_map_snd] at hmap
    exact hmap
  · intro b1 b2 h
    unfold nlargestBy sortIndexed
    simp [List.enum, List.enumFrom, List.insertionSort,
      List.orderedInsert, metricLE, h]

/-- C4 witness: the two sample rows both have 100 reviews and the top-1
selection returns the first. -/
theorem C4_topn_stable_witness :
    nlargestBy (fun b => b.reviewsCount) 1 [bookFiction, bookMystery] =
      [bookFiction] :=
  C4_topn_stable.2 bookFiction bookMystery rfl

/-- C5 counterexample: narrowing the genre multiselect from the
selection ["Fiction"] to its subset [] (all other filter fields
unchanged)
grows the filtered subset from one row to two, because the code
re-reads an empty multiselect as the all-pass sentinel. -/
theorem C5_counterexample :
    selEmptyGenre.genreSel ⊆ selFictionOnly.genreSel ∧
    selEmptyGenre.authorSel = selFictionOnly.authorSel ∧
    selEmptyGenre.priceLo = selFictionOnly.priceLo ∧
    selEmptyGenre.priceHi = selFictionOnly.priceHi ∧
    selEmptyGenre.ratingMin = selFictionOnly.ratingMin ∧
    selEmptyGenre.formatSel = selFictionOnly.formatSel ∧
    selEmptyGenre.yearSel = selFictionOnly.yearSel ∧
    (filtered_df dfTwo selFictionOnly).length <
      (filtered_df dfTwo selEmptyGenre).length := by
  decide

/-- C5 amended: narrowing filters never increases the filtered-subset
size, provided a genre/author multiselect is not narrowed from a
non-sentinel selection to the empty selection (which the code
re-reads as all-pass): the wider multiselect is all-pass (contains
the sentinel or is empty), or the narrower one is a non-all-pass
subset of it; the price range is tightened, the minimum rating raised,
and the format/year either agree or the wider one is the sentinel. -/
theorem C5_monotonicity_amended (df : List Book)
    (s2 s1 : FilterSelection) (h : Narrows s2 s1) :
    (filtered_df df s2).length ≤ (filtered_df df s1).length := by
  rw [filtered_df_eq_filter, filtered_df_eq_filter]
  exact (List.monotone_filter_right df
    (fun b hb => rowPass_mono h hb)).length_le

/-- C5 witness: restricting the default selection to Fiction only can
not grow the subset. -/
theorem C5_monotonicity_amended_witness :
    (filtered_df dfTwo selFictionOnly).length ≤
      (filtered_df dfTwo selDefault).length :=
  C5_monotonicity_amended dfTwo selFictionOnly selDefault
    (by unfold Narrows SelNarrows SentinelSel; decide)

/-- C6: an empty filtered subset propagates cleanly: the KPI pass
(which is total, nothing raises) yields count 0, zero sums, and
undefined (none, modelling NaN) mean rating and mean price. -/
theorem C6_empty_result_safety (df : List Book) (s : FilterSelection)
    (h : filtered_df df s = []) :
    total_books (filtered_df df s) = 0 ∧
    total_reviews (filtered_df df s) = 0 ∧
    total_revenue (filtered_df df s) = 0 ∧
    avg_rating (filtered_df df s) = none ∧
    avg_price (filtered_df df s) = none := by
  rw [h]
  exact ⟨rfl, rfl, rfl, rfl, rfl⟩

/-- C6 witness: the spec's scenario: a single row rated 4.5 under
threshold 4.6 filters down to zero rows and degenerate KPIs. -/
theorem C6_empty_result_safety_witness :
    total_books (filtered_df [bookRating45] selMin46) = 0 ∧
    total_reviews (filtered_df [bookRating45] selMin46) = 0 ∧
    total_revenue (filtered_df [bookRating45] selMin46) = 0 ∧
    avg_rating (filtered_df [bookRating45] selMin46) = none ∧
    avg_price (filtered_df [bookRating45] selMin46) = none :=
  C6_empty_result_safety [bookRating45] selMin46 (by decide)

/-- C7: strict price/rank parsing is fatal: a row anywhere in the input
whose price cell (after currency cleanup) or identifier cell (after
removal of the number sign) fails its strict parse makes the whole load
return an error, so no partial cleaned dataset is produced. -/
theorem C7_strict_parse_fatal (rows : List RawRow) (r : RawRow)
    (hr : r ∈ rows)
    (h : (∃ s, r.price = some s ∧ parsePrice s = none) ∨
      parseRank r.id = none) :
    ∃ e, load_data rows = Except.error e :=
  load_data_error_of_mem hr (cleanRow_error_of_malformed r h)

/-- C7 witness: one malformed price cell fails the load. -/
theorem C7_strict_parse_fatal_witness :
    ∃ e, load_data [rawBadPrice] = Except.error e :=
  C7_strict_parse_fatal [rawBadPrice] rawBadPrice (by decide)
    (Or.inl ⟨"twelve dollars", rfl, by decide⟩)

/-- In a successfully cleaned row, the date field is the lenient parse
of the raw date cell and year/month are its projections. -/
theorem cleanRow_ok_shape (r : RawRow) (b : Book)
    (hb : cleanRow r = Except.ok b) :
    b.date = parseDate r.publishingDate ∧
    b.year = (parseDate r.publishingDate).map (·.year) ∧
    b.month = (parseDate r.publishingDate).map (·.month) := by
  unfold cleanRow at hb
  cases hp : r.price with
  | none =>
      rw [hp] at hb
      dsimp only at hb
      cases hk : parseRank r.id with
      | none => rw [hk] at hb; exact absurd hb (by simp)
      | some k =>
          rw [hk] at hb
          dsimp only at hb
          simp only [Except.ok.injEq] at hb
          subst hb
          exact ⟨rfl, rfl, rfl⟩
  | some str =>
      rw [hp] at hb
      dsimp only at hb
      cases hps : parsePrice str with
      | none => rw [hps] at hb; exact absurd hb (by simp)
      | some q =>
          rw [hps] at hb
          dsimp only at hb
          cases hk : parseRank r.id with
          | none => rw [hk] at hb; exact absurd hb (by simp)
          | some k =>
              rw [hk] at hb
              dsimp only at hb
              simp only [Except.ok.injEq] at hb
              subst hb
              exact ⟨rfl, rfl, rfl⟩

/-- C8: date parsing is lenient: replacing the publishing-date cell by
any string never changes whether the row cleans successfully, and in a
cleaned row the derived year and month are missing exactly when the
parsed date is missing. -/
theorem C8_lenient_dates (r : RawRow) (s : String) :
    exceptIsOk (cleanRow { r with publishingDate := s }) =
      exceptIsOk (cleanRow r) ∧
    ∀ b, cleanRow r = Except.ok b →
      (b.year.isNone = b.date.isNone ∧ b.month.isNone = b.date.isNone) := by
  constructor
  · unfold cleanRow
    cases hp : r.price with
    | none => cases hk : parseRank r.id <;> simp [hp, hk, exceptIsOk]
    | some str =>
        cases hps : parsePrice str <;> cases hk : parseRank r.id <;>
          simp [hp, hps, hk, exceptIsOk]
  · intro b hb
    obtain ⟨hd, hy, hm⟩ := cleanRow_ok_shape r b hb
    rw [hd, hy, hm]
    cases parseDate r.publishingDate <;> simp

/-- C8 witness: the sample row with an unparseable date cleans with
missing date, year and month, and swapping its date text changes
nothing about load success. -/
theorem C8_lenient_dates_witness :
    exceptIsOk (cleanRow { rawSimple with
      publishingDate := "2023-01-15" }) = exceptIsOk (cleanRow rawSimple) ∧
    (bookSimple.year.isNone = bookSimple.date.isNone ∧
      bookSimple.month.isNone = bookSimple.date.isNone) :=
  ⟨(C8_lenient_dates rawSimple "2023-01-15").1,
    (C8_lenient_dates rawSimple "2023-01-15").2 bookSimple rfl⟩

/-- C9: implicit invariant of the filtered subset: every row of any
filtered subset (the default all-pass selection included) has a
non-missing genre, author, rating and price. -/
theorem C9_filtered_fields_present (df : List Book)
    (s : FilterSelection) (b : Book) (h : b ∈ filtered_df df s) :
    b.genre.isSome = true ∧ b.author.isSome = true ∧
      b.rating.isSome = true ∧ b.price.isSome = true :=
  rowPass_fields (mem_filtered.mp h).2

/-- C9 witness: the fully populated sample row is in its filtered
subset under the default selection, with all four fields present. -/
theorem C9_filtered_fields_present_witness :
    bookFiction.genre.isSome = true ∧ bookFiction.author.isSome = true ∧
      bookFiction.rating.isSome = true ∧
      bookFiction.price.isSome = true :=
  C9_filtered_fields_present [bookFiction] selDefault bookFiction
    (by decide)

/-- C10: determinism of the pipeline: the full filter-and-aggregate
pass is a pure function of the cleaned dataset and the filter
selection, so equal inputs give equal filtered subsets, KPI scalars and
genre/author/year aggregate tables. -/
theorem C10_determinism (d1 d2 : List Book) (s1 s2 : FilterSelection)
    (hd : d1 = d2) (hs : s1 = s2) :
    computeAll d1 s1 = computeAll d2 s2 := by
  rw [hd, hs]

/-- C10 witness: the pass on the sample dataset and default selection
equals itself across two runs. -/
theorem C10_determinism_witness :
    computeAll dfTwo selDefault = computeAll dfTwo selDefault :=
  C10_determinism dfTwo dfTwo selDefault selDefault rfl rfl

end BookMetrics
